import Mathlib

/-
Verification of the MadMiner core class (madminer/core.py): a shallow
embedding of the parameter registry, benchmark registry, morphing-state
lifecycle, persistence round-trip, and card-export benchmark selection.

Modelling conventions:
- Python `OrderedDict` fields become association lists `List (String × _)`
  (insertion order preserved; keys are checked for membership before insert,
  exactly as the asserts in the source do).
- Real parameter values become `Rat` (the claims under study are structural;
  no floating-point rounding is involved in them).
- A Python method that mutates `self` and may raise becomes a function
  returning `MadMiner × Option String`: the first component is the object
  state after all mutations performed up to the return or the raise, the
  second is `some msg` when an exception was raised, `none` on normal return.
-/

set_option autoImplicit false

/-- Python `str.replace(a, b)` for single-character patterns: replace every
occurrence of the character `a` in `s` by `b`. -/
def replaceChar (s : String) (a b : Char) : String :=
  String.mk (s.data.map (fun c => if c = a then b else c))

/-- The name normalization performed by `MadMiner.add_parameter`:
`parameter_name.replace(' ', '_').replace('-', '_')`. -/
def normalize_name (s : String) : String :=
  replaceChar (replaceChar s ' ' '_') '-' '_'

/-- Decimal digit character, `Char.ofNat (48 + d)` for a digit value `d`. -/
def digitChar (d : Nat) : Char :=
  Char.ofNat (48 + d)

/-- Decimal digit list of `n`, most significant first; `fuel` bounds the
recursion (any `fuel > n` is enough). -/
def natDigitsAux (fuel : Nat) (n : Nat) : List Char :=
  match fuel with
  | 0 => []
  | fuel + 1 =>
    if n < 10 then [digitChar n]
    else natDigitsAux fuel (n / 10) ++ [digitChar (n % 10)]

/-- Python `str(n)` for a nonnegative integer `n`. -/
def pyStr (n : Nat) : String :=
  String.mk (natDigitsAux (n + 1) n)

/-- Key membership test on an association list (`key in ordered_dict`). -/
def hasKey {α : Type} (l : List (String × α)) (k : String) : Bool :=
  l.any (fun kv => kv.1 == k)

/-- Lookup on an association list (`ordered_dict[key]`). -/
def lookupKey {α : Type} (l : List (String × α)) (k : String) : Option α :=
  (l.find? (fun kv => kv.1 == k)).map Prod.snd

/-- The property tuple stored for one parameter:
`(lha_block, lha_id, morphing_max_power, parameter_range, param_card_transform)`. -/
structure ParamProps where
  lha_block : String
  lha_id : Int
  morphing_max_power : List Int
  range_lo : Rat
  range_hi : Rat
  param_card_transform : Option String
  deriving DecidableEq

/-- Registered parameters: ordered mapping from display name to properties. -/
abbrev Params := List (String × ParamProps)

/-- A benchmark value assignment: ordered mapping from parameter name to value. -/
abbrev BenchValues := List (String × Rat)

/-- Registered benchmarks: ordered mapping from benchmark name to assignment. -/
abbrev Benchmarks := List (String × BenchValues)

/-- Modelled from the spec: the morphing module (`madminer.morphing`, whose
source is not under `src/`) stores the component list, the basis benchmarks
and the morphing matrix together with the parameters as one unit;
`set_components` stores the given components and `set_basis` stores the given
benchmarks and morphing matrix unchanged (the state tuple round-trips
losslessly). -/
structure AdvancedMorpher where
  parameters : Params
  components : List (List Nat)
  basis : Benchmarks
  morphing_matrix : List (List Rat)
  deriving DecidableEq

/-- The mutable state of a `MadMiner` instance, as set up by `__init__`. -/
structure MadMiner where
  parameters : Params
  benchmarks : Benchmarks
  default_benchmark : Option String
  morpher : Option AdvancedMorpher
  export_morphing : Bool
  deriving DecidableEq

/-- `MadMiner.__init__`: empty registries, no default benchmark, no morpher. -/
def MadMiner.init : MadMiner :=
  { parameters := []
    benchmarks := []
    default_benchmark := none
    morpher := none
    export_morphing := false }

/-- Result of a mutating method: the object state after the call together with
`some message` when the call raised, `none` when it returned normally. -/
abbrev MMResult := MadMiner × Option String

/-- Python `int` vs `tuple of ints` for `morphing_max_power`. -/
abbrev MaxPower := Sum Int (List Int)

/-- `isinstance(morphing_max_power, int)` branch of `add_parameter`: an int
becomes a one-element tuple. -/
def resolveMaxPower : MaxPower → List Int
  | Sum.inl n => [n]
  | Sum.inr l => l

/-- `MadMiner.add_parameter`: default name `parameter_<len(parameters)>`,
normalization of spaces and hyphens to underscores, duplicate check, append,
and invalidation of the morpher. -/
def add_parameter (st : MadMiner) (lha_block : String) (lha_id : Int)
    (parameter_name : Option String) (param_card_transform : Option String)
    (morphing_max_power : MaxPower) (parameter_range : Rat × Rat) : MMResult :=
  let name0 :=
    match parameter_name with
    | none => "parameter_" ++ pyStr st.parameters.length
    | some n => n
  let name := normalize_name name0
  if hasKey st.parameters name then
    (st, some ("Parameter name exists already: " ++ name))
  else
    ({ st with
        parameters := st.parameters ++
          [(name, { lha_block := lha_block
                    lha_id := lha_id
                    morphing_max_power := resolveMaxPower morphing_max_power
                    range_lo := parameter_range.1
                    range_hi := parameter_range.2
                    param_card_transform := param_card_transform })]
        morpher := none },
     none)

/-- One value of the `parameters` argument of `set_parameters`: a tuple of
length 2, of length 5, or of any other (rejected) length. -/
inductive ParamSpecEntry where
  | pair (lha_block : String) (lha_id : Int)
  | full (lha_block : String) (lha_id : Int) (power : MaxPower) (vmin vmax : Rat)
  | other (len : Nat)
  deriving DecidableEq

/-- The dict-branch loop of `set_parameters`: one `add_parameter` call per
key/value entry, raising on tuples of unexpected length; a raise leaves the
partially rebuilt registry in place. -/
def set_parameters_dict_loop (st : MadMiner) :
    List (String × ParamSpecEntry) → MMResult
  | [] => (st, none)
  | (key, entry) :: rest =>
    let r :=
      match entry with
      | ParamSpecEntry.pair b i =>
        add_parameter st b i (some key) none (Sum.inl 2) (0, 1)
      | ParamSpecEntry.full b i p lo hi =>
        add_parameter st b i (some key) none p (lo, hi)
      | ParamSpecEntry.other n =>
        (st, some ("Parameter properties has unexpected length: " ++ pyStr n))
    match r.2 with
    | some _ => r
    | none => set_parameters_dict_loop r.1 rest

/-- `MadMiner.set_parameters` on a dict argument: clears the registry, then
adds every entry, then invalidates the morpher. -/
def set_parameters_dict (st : MadMiner)
    (ps : List (String × ParamSpecEntry)) : MMResult :=
  let r := set_parameters_dict_loop { st with parameters := [] } ps
  match r.2 with
  | some _ => r
  | none => ({ r.1 with morpher := none }, none)

/-- The list-branch loop of `set_parameters`: each entry must be a 2-tuple
(`assert len(values) == 2`) and is added with an autogenerated name. -/
def set_parameters_list_loop (st : MadMiner) : List ParamSpecEntry → MMResult
  | [] => (st, none)
  | entry :: rest =>
    let r :=
      match entry with
      | ParamSpecEntry.pair b i =>
        add_parameter st b i none none (Sum.inl 2) (0, 1)
      | ParamSpecEntry.full _ _ _ _ _ =>
        (st, some "Parameter list entry does not have length 2")
      | ParamSpecEntry.other n =>
        (st, some ("Parameter list entry does not have length 2: " ++ pyStr n))
    match r.2 with
    | some _ => r
    | none => set_parameters_list_loop r.1 rest

/-- `MadMiner.set_parameters` on a list argument. -/
def set_parameters_list (st : MadMiner) (ps : List ParamSpecEntry) : MMResult :=
  let r := set_parameters_list_loop { st with parameters := [] } ps
  match r.2 with
  | some _ => r
  | none => ({ r.1 with morpher := none }, none)

/-- First key of `parameter_values` that is not a registered parameter
(the key on which the `assert key in self.parameters` loop raises). -/
def firstUnknownKey (params : Params) (vals : BenchValues) : Option String :=
  (vals.find? (fun kv => !(hasKey params kv.1))).map Prod.fst

/-- `MadMiner.add_benchmark`: default name `benchmark_<len(benchmarks)>`,
unknown-parameter check, duplicate-name check, append, first-benchmark
default, and invalidation of the morpher. -/
def add_benchmark (st : MadMiner) (parameter_values : BenchValues)
    (benchmark_name : Option String) : MMResult :=
  let name :=
    match benchmark_name with
    | none => "benchmark_" ++ pyStr st.benchmarks.length
    | some n => n
  match firstUnknownKey st.parameters parameter_values with
  | some k => (st, some ("Unknown parameter: " ++ k))
  | none =>
    if hasKey st.benchmarks name then
      (st, some ("Benchmark name exists already: " ++ name))
    else
      let benchmarks2 := st.benchmarks ++ [(name, parameter_values)]
      ({ st with
          benchmarks := benchmarks2
          default_benchmark :=
            if benchmarks2.length = 1 then some name else st.default_benchmark
          morpher := none },
       none)

/-- The dict-branch loop of `set_benchmarks`: one `add_benchmark` call per
name/values entry. -/
def set_benchmarks_dict_loop (st : MadMiner) : Benchmarks → MMResult
  | [] => (st, none)
  | (name, vals) :: rest =>
    let r := add_benchmark st vals (some name)
    match r.2 with
    | some _ => r
    | none => set_benchmarks_dict_loop r.1 rest

/-- `MadMiner.set_benchmarks` on a dict argument: clears the benchmark
registry and the default benchmark, adds every entry, invalidates the
morpher. -/
def set_benchmarks_dict (st : MadMiner) (bs : Benchmarks) : MMResult :=
  let r := set_benchmarks_dict_loop
    { st with benchmarks := [], default_benchmark := none } bs
  match r.2 with
  | some _ => r
  | none => ({ r.1 with morpher := none }, none)

/-- The list-branch loop of `set_benchmarks`: names are autogenerated. -/
def set_benchmarks_list_loop (st : MadMiner) : List BenchValues → MMResult
  | [] => (st, none)
  | vals :: rest =>
    let r := add_benchmark st vals none
    match r.2 with
    | some _ => r
    | none => set_benchmarks_list_loop r.1 rest

/-- `MadMiner.set_benchmarks` on a list argument. -/
def set_benchmarks_list (st : MadMiner) (bs : List BenchValues) : MMResult :=
  let r := set_benchmarks_list_loop
    { st with benchmarks := [], default_benchmark := none } bs
  match r.2 with
  | some _ => r
  | none => ({ r.1 with morpher := none }, none)

/-- The keyword parameters accepted by `MadMiner.set_benchmarks_from_morphing`,
in signature order (besides `self`). -/
def set_benchmarks_from_morphing_args : List String :=
  ["max_overall_power", "n_bases", "keep_existing_benchmarks", "n_trials",
   "n_test_thetas"]

/-- The keyword arguments `set_benchmarks_from_morphing` passes to
`morpher.optimize_basis` at its call sites. -/
def optimize_basis_call_kwargs : List String :=
  ["n_bases", "fixed_benchmarks_from_madminer", "n_trials", "n_test_thetas"]

/-- The content of the settings file:
`(parameters, benchmarks, morphing_components, morphing_matrix)`, the morphing
fields optional ("no morphing configured"). -/
structure MadMinerSettings where
  parameters : Params
  benchmarks : Benchmarks
  morphing_components : Option (List (List Nat))
  morphing_matrix : Option (List (List Rat))
  deriving DecidableEq

/-- `MadMiner.save`: with a morpher the file holds parameters, benchmarks and
the morpher's components and morphing matrix; without one the morphing fields
are absent. -/
def save (st : MadMiner) : MadMinerSettings :=
  match st.morpher with
  | some m =>
    { parameters := st.parameters
      benchmarks := st.benchmarks
      morphing_components := some m.components
      morphing_matrix := some m.morphing_matrix }
  | none =>
    { parameters := st.parameters
      benchmarks := st.benchmarks
      morphing_components := none
      morphing_matrix := none }

/-- Modelled from the spec: `save_madminer_settings` followed by
`load_madminer_settings` (HDF5 persistence, whose source is not under `src/`)
round-trips the four-element state tuple losslessly. -/
def load_madminer_settings (file : MadMinerSettings) : MadMinerSettings :=
  file

/-- `MadMiner.load`: replaces parameters and benchmarks, keeps an already-set
default benchmark (the first loaded benchmark becomes the default only when
none was set), and configures a morpher exactly when both morphing fields are
present and `disable_morphing` is false. -/
def load (st : MadMiner) (file : MadMinerSettings)
    (disable_morphing : Bool) : MadMiner :=
  let data := load_madminer_settings file
  let st1 := { st with parameters := data.parameters, benchmarks := data.benchmarks }
  let st2 :=
    { st1 with
        default_benchmark :=
          match st1.default_benchmark with
          | some d => some d
          | none => (data.benchmarks.head?).map Prod.fst
        morpher := none
        export_morphing := false }
  match data.morphing_matrix, data.morphing_components, disable_morphing with
  | some mat, some comps, false =>
    { st2 with
        morpher := some
          { parameters := data.parameters
            components := comps
            basis := data.benchmarks
            morphing_matrix := mat }
        export_morphing := true }
  | _, _, _ => st2

/-- `MadMiner.export_cards`, reduced to its state-relevant effect: the two
status asserts, the resolution of `sample_benchmark=None` to the default
benchmark, and the benchmark assignment handed to the card writers. The state
is returned unchanged (the method assigns to no attribute of `self`). -/
def export_cards (st : MadMiner) (sample_benchmark : Option String) :
    MadMiner × Except String (String × BenchValues) :=
  match st.default_benchmark with
  | none => (st, Except.error "AssertionError: default_benchmark is None")
  | some d =>
    if st.benchmarks.length = 0 then
      (st, Except.error "AssertionError: no benchmarks")
    else
      let sb := sample_benchmark.getD d
      match lookupKey st.benchmarks sb with
      | none => (st, Except.error ("KeyError: " ++ sb))
      | some vals => (st, Except.ok (sb, vals))

/-- Every character produced by `natDigitsAux` is a decimal digit character. -/
theorem mem_natDigitsAux {fuel n : Nat} {c : Char}
    (h : c ∈ natDigitsAux fuel n) : ∃ d, d < 10 ∧ c = digitChar d := by
  induction fuel generalizing n with
  | zero => simp [natDigitsAux] at h
  | succ fuel ih =>
    rw [natDigitsAux] at h
    split at h
    · rw [List.mem_singleton] at h
      exact ⟨n, by assumption, h⟩
    · rcases List.mem_append.mp h with h1 | h2
      · exact ih h1
      · rw [List.mem_singleton] at h2
        exact ⟨n % 10, Nat.mod_lt _ (by norm_num), h2⟩

/-- Digit characters are neither a space nor a hyphen. -/
theorem digitChar_not_special {d : Nat} (h : d < 10) :
    digitChar d ≠ ' ' ∧ digitChar d ≠ '-' := by
  interval_cases d <;> exact ⟨by decide, by decide⟩

/-- `replaceChar` is the identity on strings not containing the pattern. -/
theorem replaceChar_eq_self {s : String} {a b : Char}
    (h : ∀ c ∈ s.data, c ≠ a) : replaceChar s a b = s := by
  cases s with
  | mk l =>
    show String.mk (l.map _) = String.mk l
    congr 1
    induction l with
    | nil => rfl
    | cons c t ih =>
      simp only [List.map_cons]
      rw [if_neg (h c (List.mem_cons_self c t)), ih]
      intro x hx
      exact h x (List.mem_cons_of_mem c hx)

/-- Normalization is the identity on names without spaces and hyphens. -/
theorem normalize_name_eq_self {s : String}
    (h : ∀ c ∈ s.data, c ≠ ' ' ∧ c ≠ '-') : normalize_name s = s := by
  unfold normalize_name
  rw [replaceChar_eq_self (fun c hc => (h c hc).1)]
  exact replaceChar_eq_self (fun c hc => (h c hc).2)

/-- Autogenerated names `base ++ str(n)` contain no space and no hyphen when
the base contains none. -/
theorem autogen_chars_not_special {base : String}
    (hb : ∀ c ∈ base.data, c ≠ ' ' ∧ c ≠ '-') (n : Nat) :
    ∀ c ∈ (base ++ pyStr n).data, c ≠ ' ' ∧ c ≠ '-' := by
  intro c hc
  rw [String.data_append] at hc
  rcases List.mem_append.mp hc with h1 | h2
  · exact hb c h1
  · have h3 : c ∈ natDigitsAux (n + 1) n := h2
    rcases mem_natDigitsAux h3 with ⟨d, hd, rfl⟩
    exact digitChar_not_special hd

/-- Normalization leaves autogenerated `parameter_<n>` names unchanged. -/
theorem normalize_parameter_autogen (n : Nat) :
    normalize_name ("parameter_" ++ pyStr n) = "parameter_" ++ pyStr n :=
  normalize_name_eq_self (autogen_chars_not_special (by decide) n)

/-- C1: after any normally-returning call to add_parameter, set_parameters
(dict or list input), add_benchmark, or set_benchmarks (dict or list input),
the stored morphing state (the morpher field) is absent. -/
theorem c1_manual_edits_invalidate_morpher
    (st : MadMiner) (blk : String) (i : Int) (nm : Option String)
    (tr : Option String) (mp : MaxPower) (rg : Rat × Rat)
    (vals : BenchValues) (bnm : Option String)
    (pd : List (String × ParamSpecEntry)) (pl : List ParamSpecEntry)
    (bd : Benchmarks) (bl : List BenchValues) :
    ((add_parameter st blk i nm tr mp rg).2 = none →
      (add_parameter st blk i nm tr mp rg).1.morpher = none) ∧
    ((set_parameters_dict st pd).2 = none →
      (set_parameters_dict st pd).1.morpher = none) ∧
    ((set_parameters_list st pl).2 = none →
      (set_parameters_list st pl).1.morpher = none) ∧
    ((add_benchmark st vals bnm).2 = none →
      (add_benchmark st vals bnm).1.morpher = none) ∧
    ((set_benchmarks_dict st bd).2 = none →
      (set_benchmarks_dict st bd).1.morpher = none) ∧
    ((set_benchmarks_list st bl).2 = none →
      (set_benchmarks_list st bl).1.morpher = none) := by
  refine ⟨?_, ?_, ?_, ?_, ?_, ?_⟩
  · simp only [add_parameter]
    split
    · intro h; simp_all
    · intro _; rfl
  · simp only [set_parameters_dict]
    split
    · intro h; simp_all
    · intro _; rfl
  · simp only [set_parameters_list]
    split
    · intro h; simp_all
    · intro _; rfl
  · simp only [add_benchmark]
    split
    · intro h; simp_all
    · split
      · intro h; simp_all
      · intro _; rfl
  · simp only [set_benchmarks_dict]
    split
    · intro h; simp_all
    · intro _; rfl
  · simp only [set_benchmarks_list]
    split
    · intro h; simp_all
    · intro _; rfl

/-- Witness for C1: concrete successful calls to all six operations, each
ending with no morphing state. -/
theorem c1_witness :
    (add_parameter MadMiner.init "blk" 9 none none (Sum.inl 2) (0, 1)).1.morpher = none ∧
    (set_parameters_dict MadMiner.init [("p", ParamSpecEntry.pair "blk" 9)]).1.morpher = none ∧
    (set_parameters_list MadMiner.init [ParamSpecEntry.pair "blk" 9]).1.morpher = none ∧
    (add_benchmark MadMiner.init [] none).1.morpher = none ∧
    (set_benchmarks_dict MadMiner.init [("n", [])]).1.morpher = none ∧
    (set_benchmarks_list MadMiner.init [[]]).1.morpher = none := by
  have h := c1_manual_edits_invalidate_morpher MadMiner.init "blk" 9 none none
    (Sum.inl 2) (0, 1) [] none [("p", ParamSpecEntry.pair "blk" 9)]
    [ParamSpecEntry.pair "blk" 9] [("n", [])] [[]]
  exact ⟨h.1 (by decide), h.2.1 (by decide), h.2.2.1 (by decide),
    h.2.2.2.1 (by decide), h.2.2.2.2.1 (by decide), h.2.2.2.2.2 (by decide)⟩

/-- C2: save followed by load on a fresh instance reproduces identical
parameters, identical benchmarks, identical morphing components and an
identical morphing matrix; when no morpher is present the file carries no
morphing fields and the loaded instance has no morpher. -/
theorem c2_save_load_roundtrip (st : MadMiner) :
    (load MadMiner.init (save st) false).parameters = st.parameters ∧
    (load MadMiner.init (save st) false).benchmarks = st.benchmarks ∧
    (save st).morphing_components = st.morpher.map AdvancedMorpher.components ∧
    (save st).morphing_matrix = st.morpher.map AdvancedMorpher.morphing_matrix ∧
    (load MadMiner.init (save st) false).morpher.map AdvancedMorpher.components
      = st.morpher.map AdvancedMorpher.components ∧
    (load MadMiner.init (save st) false).morpher.map AdvancedMorpher.morphing_matrix
      = st.morpher.map AdvancedMorpher.morphing_matrix ∧
    (load MadMiner.init (save st) false).morpher.isSome = st.morpher.isSome := by
  cases hm : st.morpher with
  | none => simp [load, save, load_madminer_settings, hm, MadMiner.init]
  | some m => simp [load, save, load_madminer_settings, hm, MadMiner.init]

/-- C3 counterexample: the basis optimization entry point accepts no random
source: no parameter of set_benchmarks_from_morphing and no keyword of its
optimize_basis calls is a random source or seed argument. -/
theorem c3_counterexample :
    ("rng" ∉ set_benchmarks_from_morphing_args ∧
     "seed" ∉ set_benchmarks_from_morphing_args ∧
     "random_state" ∉ set_benchmarks_from_morphing_args ∧
     "random" ∉ set_benchmarks_from_morphing_args) ∧
    ("rng" ∉ optimize_basis_call_kwargs ∧
     "seed" ∉ optimize_basis_call_kwargs ∧
     "random_state" ∉ optimize_basis_call_kwargs ∧
     "random" ∉ optimize_basis_call_kwargs) := by decide

/-- C3 amended: set_benchmarks_from_morphing accepts exactly
max_overall_power, n_bases, keep_existing_benchmarks, n_trials and
n_test_thetas, and its optimize_basis calls pass exactly n_bases,
fixed_benchmarks_from_madminer, n_trials and n_test_thetas; none of these is
a random source or seed, so no injectable random source exists and seeded
reproducibility is not available through this entry point. -/
theorem c3_no_random_source_argument :
    set_benchmarks_from_morphing_args =
      ["max_overall_power", "n_bases", "keep_existing_benchmarks",
       "n_trials", "n_test_thetas"] ∧
    optimize_basis_call_kwargs =
      ["n_bases", "fixed_benchmarks_from_madminer", "n_trials",
       "n_test_thetas"] ∧
    ∀ a ∈ set_benchmarks_from_morphing_args ++ optimize_basis_call_kwargs,
      a ≠ "rng" ∧ a ≠ "seed" ∧ a ≠ "random_state" ∧ a ≠ "random" := by decide

/-- Witness for C3 amended: the trial-count argument in particular is not a
random source name. -/
theorem c3_witness :
    "n_trials" ≠ "rng" ∧ "n_trials" ≠ "seed" ∧
    "n_trials" ≠ "random_state" ∧ "n_trials" ≠ "random" :=
  c3_no_random_source_argument.2.2 "n_trials" (by decide)

/-- A concrete state with one registered parameter named a, used in the
concrete scenarios below. -/
def mmOneParam : MadMiner :=
  { parameters := [("a", { lha_block := "blk"
                           lha_id := 1
                           morphing_max_power := [2]
                           range_lo := 0
                           range_hi := 1
                           param_card_transform := none })]
    benchmarks := []
    default_benchmark := none
    morpher := none
    export_morphing := false }

/-- C4 counterexample: set_parameters raising mid-way does not leave the state
unchanged: on a state with one registered parameter, a call with a
length-3 property tuple raises, yet afterwards the parameter registry is
empty instead of the original one (it is cleared before validation). -/
theorem c4_counterexample :
    (set_parameters_dict mmOneParam [("p", ParamSpecEntry.other 3)]).2.isSome
      = true ∧
    ¬ ((set_parameters_dict mmOneParam [("p", ParamSpecEntry.other 3)]).1.parameters
      = mmOneParam.parameters) := by decide

/-- C4 amended: configuration errors are raised synchronously, and the
single-item operations add_parameter and add_benchmark leave the instance
exactly as it was when they raise; set_parameters and set_benchmarks, by
contrast, clear the respective registry (set_benchmarks also the default
benchmark) before validating, so raising mid-way leaves the cleared or
partially rebuilt state rather than the original one. -/
theorem c4_single_add_no_partial_mutation (st : MadMiner) (blk : String)
    (i : Int) (nm : Option String) (tr : Option String) (mp : MaxPower)
    (rg : Rat × Rat) (vals : BenchValues) (bnm : Option String) :
    ((add_parameter st blk i nm tr mp rg).2.isSome = true →
      (add_parameter st blk i nm tr mp rg).1 = st) ∧
    ((add_benchmark st vals bnm).2.isSome = true →
      (add_benchmark st vals bnm).1 = st) := by
  constructor
  · simp only [add_parameter]
    split
    · intro _; rfl
    · intro h; simp at h
  · simp only [add_benchmark]
    split
    · intro _; rfl
    · split
      · intro _; rfl
      · intro h; simp at h

/-- Witness for C4 amended: a duplicate-name add_parameter and an
unknown-parameter add_benchmark on a concrete state both leave it intact. -/
theorem c4_witness :
    (add_parameter mmOneParam "blk" 1 (some "a") none (Sum.inl 2) (0, 1)).1
      = mmOneParam ∧
    (add_benchmark mmOneParam [("z", 1)] none).1 = mmOneParam := by
  have h := c4_single_add_no_partial_mutation mmOneParam "blk" 1 (some "a")
    none (Sum.inl 2) (0, 1) [("z", 1)] none
  exact ⟨h.1 (by decide), h.2 (by decide)⟩

/-- A concrete state with two registered parameters a and b. -/
def mmTwoParams : MadMiner :=
  { parameters := [("a", { lha_block := "blk"
                           lha_id := 1
                           morphing_max_power := [2]
                           range_lo := 0
                           range_hi := 1
                           param_card_transform := none }),
                   ("b", { lha_block := "blk"
                           lha_id := 2
                           morphing_max_power := [2]
                           range_lo := 0
                           range_hi := 1
                           param_card_transform := none })]
    benchmarks := []
    default_benchmark := none
    morpher := none
    export_morphing := false }

/-- C5 counterexample: add_benchmark accepts a non-total assignment: with
parameters a and b registered, a benchmark assigning only a is accepted, and
its stored key set is the proper subset of the registered names missing b. -/
theorem c5_counterexample :
    (add_benchmark mmTwoParams [("a", 1)] (some "bm")).2 = none ∧
    mmTwoParams.parameters.map Prod.fst = ["a", "b"] ∧
    (lookupKey (add_benchmark mmTwoParams [("a", 1)] (some "bm")).1.benchmarks
        "bm").map (List.map Prod.fst) = some ["a"] := by decide

/-- C5 amended: every benchmark accepted by add_benchmark references only
known parameter names (its key set is a subset of the registered parameter
names, and add_benchmark fails on any unknown name); totality is not
enforced, a benchmark may omit registered parameters. -/
theorem c5_benchmark_keys_known (st : MadMiner) (vals : BenchValues)
    (bnm : Option String) (h : (add_benchmark st vals bnm).2 = none) :
    ∀ k ∈ vals.map Prod.fst, hasKey st.parameters k = true := by
  have hunk : firstUnknownKey st.parameters vals = none := by
    revert h
    simp only [add_benchmark]
    split
    · intro h; simp at h
    · intro _; assumption
  intro k hk
  rcases List.mem_map.mp hk with ⟨kv, hkv, rfl⟩
  have hfind : vals.find? (fun kv => !(hasKey st.parameters kv.1)) = none := by
    have h1 : (vals.find? (fun kv => !(hasKey st.parameters kv.1))).map Prod.fst
        = none := hunk
    exact Option.map_eq_none.mp h1
  have h2 := List.find?_eq_none.mp hfind kv hkv
  simpa using h2

/-- Witness for C5 amended: the key of a concretely accepted benchmark is a
registered parameter name. -/
theorem c5_witness : hasKey mmTwoParams.parameters "a" = true :=
  c5_benchmark_keys_known mmTwoParams [("a", 1)] (some "bm") (by decide) "a"
    (by decide)

/-- C6: on an instance with no benchmarks the first added benchmark becomes
the default sampling benchmark; export_cards with sample_benchmark=None
samples that default, and an explicit sample_benchmark overrides it while the
state (hence the default) is returned unchanged. -/
theorem c6_default_benchmark_sampling
    (st1 st2 st3 : MadMiner) (vals : BenchValues) (bnm : Option String)
    (d d2 b : String) (v w : BenchValues) :
    (st1.benchmarks = [] → (add_benchmark st1 vals bnm).2 = none →
      (add_benchmark st1 vals bnm).1.default_benchmark
        = ((add_benchmark st1 vals bnm).1.benchmarks.head?).map Prod.fst ∧
      (add_benchmark st1 vals bnm).1.benchmarks.length = 1) ∧
    (st2.default_benchmark = some d → lookupKey st2.benchmarks d = some v →
      export_cards st2 none = (st2, Except.ok (d, v))) ∧
    (st3.default_benchmark = some d2 → lookupKey st3.benchmarks b = some w →
      export_cards st3 (some b) = (st3, Except.ok (b, w))) := by
  refine ⟨?_, ?_, ?_⟩
  · obtain ⟨ps, bs, db, mo, em⟩ := st1
    intro he
    simp only at he
    subst he
    simp only [add_benchmark]
    split
    · intro h; simp at h
    · split
      · intro h; simp at h
      · intro _
        constructor
        · simp
        · simp
  · intro hd hl
    have hne : ¬ (st2.benchmarks.length = 0) := by
      intro h0
      rw [List.length_eq_zero.mp h0] at hl
      simp [lookupKey] at hl
    simp [export_cards, hd, hne, hl]
  · intro hd hl
    have hne : ¬ (st3.benchmarks.length = 0) := by
      intro h0
      rw [List.length_eq_zero.mp h0] at hl
      simp [lookupKey] at hl
    simp [export_cards, hd, hne, hl]

/-- A concrete state with one parameter, two benchmarks, and bm as default. -/
def mmBench : MadMiner :=
  { parameters := [("a", { lha_block := "blk"
                           lha_id := 1
                           morphing_max_power := [2]
                           range_lo := 0
                           range_hi := 1
                           param_card_transform := none })]
    benchmarks := [("bm", [("a", 1)]), ("bm2", [("a", 2)])]
    default_benchmark := some "bm"
    morpher := none
    export_morphing := false }

/-- Witness for C6: a first added benchmark becomes the default, a concrete
export with no sample benchmark uses the default bm, and an explicit bm2
overrides it. -/
theorem c6_witness :
    ((add_benchmark MadMiner.init [] none).1.default_benchmark
      = ((add_benchmark MadMiner.init [] none).1.benchmarks.head?).map Prod.fst
      ∧ (add_benchmark MadMiner.init [] none).1.benchmarks.length = 1) ∧
    export_cards mmBench none = (mmBench, Except.ok ("bm", [("a", 1)])) ∧
    export_cards mmBench (some "bm2")
      = (mmBench, Except.ok ("bm2", [("a", 2)])) := by
  have h := c6_default_benchmark_sampling MadMiner.init mmBench mmBench []
    none "bm" "bm" "bm2" [("a", 1)] [("a", 2)]
  exact ⟨h.1 rfl (by decide), h.2.1 rfl (by decide), h.2.2 rfl (by decide)⟩

/-- C7: after load, a morpher is configured exactly when both the morphing
components and the morphing matrix are present in the loaded tuple and
disable_morphing is false, and export_morphing reports the same condition;
in every other case the instance ends with no morpher and export_morphing
false. -/
theorem c7_load_morphing_configuration (st : MadMiner)
    (file : MadMinerSettings) (d : Bool) :
    (load st file d).morpher.isSome
      = (file.morphing_components.isSome && file.morphing_matrix.isSome && !d)
    ∧ (load st file d).export_morphing
      = (file.morphing_components.isSome && file.morphing_matrix.isSome && !d)
    := by
  obtain ⟨ps, bs, mc, mm⟩ := file
  cases mc <;> cases mm <;> cases d <;>
    simp [load, load_madminer_settings]

/-- C8: the display name stored by add_parameter is the given name with every
space and every hyphen replaced by an underscore (the two sequential replaces
equal the one-pass replacement), and add_parameter fails with a duplicate
error exactly when the normalized name is already registered. -/
theorem c8_parameter_name_normalization (st : MadMiner) (blk : String)
    (i : Int) (nm : String) (tr : Option String) (mp : MaxPower)
    (rg : Rat × Rat) :
    (normalize_name nm).data
      = nm.data.map (fun c => if c = ' ' ∨ c = '-' then '_' else c) ∧
    (hasKey st.parameters (normalize_name nm) = true →
      (add_parameter st blk i (some nm) tr mp rg).2
        = some ("Parameter name exists already: " ++ normalize_name nm)) ∧
    ((add_parameter st blk i (some nm) tr mp rg).2 = none →
      (add_parameter st blk i (some nm) tr mp rg).1.parameters.map Prod.fst
        = st.parameters.map Prod.fst ++ [normalize_name nm]) := by
  refine ⟨?_, ?_, ?_⟩
  · show ((nm.data.map _).map _) = _
    rw [List.map_map]
    apply List.map_congr_left
    intro c _
    by_cases h1 : c = ' '
    · subst h1; simp
    · by_cases h2 : c = '-'
      · subst h2; simp
      · simp [h1, h2]
  · intro hk
    simp [add_parameter, hk]
  · simp only [add_parameter]
    split
    · intro h; simp at h
    · intro _
      simp

/-- Witness for C8: a name with a space and a hyphen is stored as
my_param_x, and re-adding a name whose normalization is already registered
fails with the duplicate error. -/
theorem c8_witness :
    (add_parameter mmOneParam "blk" 1 (some "a") none (Sum.inl 2) (0, 1)).2
      = some ("Parameter name exists already: " ++ normalize_name "a") ∧
    (add_parameter MadMiner.init "blk" 1 (some "my param-x") none (Sum.inl 2)
        (0, 1)).1.parameters.map Prod.fst
      = MadMiner.init.parameters.map Prod.fst
        ++ [normalize_name "my param-x"] := by
  have h1 := c8_parameter_name_normalization mmOneParam "blk" 1 "a" none
    (Sum.inl 2) (0, 1)
  have h2 := c8_parameter_name_normalization MadMiner.init "blk" 1
    "my param-x" none (Sum.inl 2) (0, 1)
  exact ⟨h1.2.1 (by decide), h2.2.2 (by decide)⟩

/-- C9: load replaces the instance's benchmarks with the loaded ones but
never clears an already-set default benchmark: the first loaded benchmark
becomes the default exactly when no default was set before the call. -/
theorem c9_load_keeps_default_benchmark (st : MadMiner)
    (file : MadMinerSettings) (d : Bool) :
    (load st file d).benchmarks = file.benchmarks ∧
    (load st file d).default_benchmark
      = (if st.default_benchmark.isSome then st.default_benchmark
         else (file.benchmarks.head?).map Prod.fst) := by
  obtain ⟨ps, bs, mc, mm⟩ := file
  cases mc <;> cases mm <;> cases d <;> cases hdb : st.default_benchmark <;>
    simp [load, load_madminer_settings, hdb]

/-- C10: with no name supplied, add_parameter names the new entry
parameter_<n> and add_benchmark names it benchmark_<n>, with n the number of
entries currently registered; when that autogenerated name is already
registered, the add fails with the duplicate-name error. -/
theorem c10_autogenerated_names (st : MadMiner) (blk : String) (i : Int)
    (tr : Option String) (mp : MaxPower) (rg : Rat × Rat)
    (vals : BenchValues) :
    ((add_parameter st blk i none tr mp rg).2 = none →
      (add_parameter st blk i none tr mp rg).1.parameters.map Prod.fst
        = st.parameters.map Prod.fst
          ++ ["parameter_" ++ pyStr st.parameters.length]) ∧
    (hasKey st.parameters ("parameter_" ++ pyStr st.parameters.length) = true →
      (add_parameter st blk i none tr mp rg).2
        = some ("Parameter name exists already: "
            ++ ("parameter_" ++ pyStr st.parameters.length))) ∧
    ((add_benchmark st vals none).2 = none →
      (add_benchmark st vals none).1.benchmarks.map Prod.fst
        = st.benchmarks.map Prod.fst
          ++ ["benchmark_" ++ pyStr st.benchmarks.length]) ∧
    (firstUnknownKey st.parameters vals = none →
      hasKey st.benchmarks ("benchmark_" ++ pyStr st.benchmarks.length) = true →
      (add_benchmark st vals none).2
        = some ("Benchmark name exists already: "
            ++ ("benchmark_" ++ pyStr st.benchmarks.length))) := by
  refine ⟨?_, ?_, ?_, ?_⟩
  · simp only [add_parameter, normalize_parameter_autogen]
    split
    · intro h; simp at h
    · intro _; simp
  · intro hk
    simp [add_parameter, normalize_parameter_autogen, hk]
  · simp only [add_benchmark]
    split
    · intro h; simp at h
    · split
      · intro h; simp at h
      · intro _; simp
  · intro hu hk
    simp [add_benchmark, hu, hk]

/-- A concrete state in which the autogenerated names collide with existing
explicitly chosen names: one parameter named parameter_1 and one benchmark
named benchmark_1. -/
def mmAutoCollide : MadMiner :=
  { parameters := [("parameter_1", { lha_block := "blk"
                                     lha_id := 1
                                     morphing_max_power := [2]
                                     range_lo := 0
                                     range_hi := 1
                                     param_card_transform := none })]
    benchmarks := [("benchmark_1", [])]
    default_benchmark := some "benchmark_1"
    morpher := none
    export_morphing := false }

/-- Witness for C10: on an empty instance the autogenerated names are
parameter_0 and benchmark_0; on a one-entry registry whose entry is
explicitly named parameter_1 (resp. benchmark_1), a nameless add fails with
the duplicate-name error. -/
theorem c10_witness :
    (add_parameter MadMiner.init "blk" 1 none none (Sum.inl 2)
        (0, 1)).1.parameters.map Prod.fst
      = MadMiner.init.parameters.map Prod.fst
        ++ ["parameter_" ++ pyStr MadMiner.init.parameters.length] ∧
    (add_parameter mmAutoCollide "blk" 1 none none (Sum.inl 2) (0, 1)).2
      = some ("Parameter name exists already: "
          ++ ("parameter_" ++ pyStr mmAutoCollide.parameters.length)) ∧
    (add_benchmark MadMiner.init [] none).1.benchmarks.map Prod.fst
      = MadMiner.init.benchmarks.map Prod.fst
        ++ ["benchmark_" ++ pyStr MadMiner.init.benchmarks.length] ∧
    (add_benchmark mmAutoCollide [] none).2
      = some ("Benchmark name exists already: "
          ++ ("benchmark_" ++ pyStr mmAutoCollide.benchmarks.length)) := by
  have h1 := c10_autogenerated_names MadMiner.init "blk" 1 none (Sum.inl 2)
    (0, 1) []
  have h2 := c10_autogenerated_names mmAutoCollide "blk" 1 none (Sum.inl 2)
    (0, 1) []
  exact ⟨h1.1 (by decide), h2.2.1 (by decide), h1.2.2.1 (by decide),
    h2.2.2.2 (by decide) (by decide)⟩
